import Mathlib

/-!
Shallow embedding of the retail management application's transactional core
(the layered "manager + database" variant: pos_manager.py, credit_sales_manager.py,
inventory_manager.py, stock_log_manager.py, database.py) and proofs about it.

Modelling conventions:
* Money amounts (REAL columns, Python floats) are modelled as rationals.
* Quantities (Python ints / INTEGER columns) are modelled as Int.
* The SQLite tables are lists of rows; AUTOINCREMENT ids are modelled by
  explicit next-id counters on the store state.
* Wall-clock fields (sale_date, sale_time, due_date and the stock-in log's
  date/time) and the human-readable message strings are not modelled; no
  claim depends on them.
* A Python method that returns (bool, message) and mutates state becomes a
  Lean function returning Bool paired with the new state.
-/

namespace Retail

/-- The status column of the credit_sales table: the strings
'Unpaid', 'Partially Paid', 'Paid' used by the source. -/
inductive CreditStatus
  | Unpaid
  | PartiallyPaid
  | Paid
deriving DecidableEq, Repr

/-- A row of the products table (database.py, initialize_db). -/
structure Product where
  item_no : String
  item_name : String
  supplier_price : ℚ
  selling_price : ℚ
  current_stock : Int
  reorder_alert : Bool
  reorder_qty : Int
  is_active : Bool
deriving DecidableEq, Repr

/-- A row of the sales table. -/
structure SaleRow where
  sale_id : Nat
  total_amount : ℚ
  payment_type : String
  customer_name : Option String
  notes : Option String
deriving DecidableEq, Repr

/-- A row of the sale_items table. -/
structure SaleItemRow where
  sale_id : Nat
  item_no : String
  quantity_sold : Int
  selling_price_at_sale : ℚ
  supplier_price_at_sale : ℚ
deriving DecidableEq, Repr

/-- A row of the stock_in_log table. -/
structure StockInRow where
  item_no : String
  quantity_added : Int
  supplier_name : String
  notes : String
deriving DecidableEq, Repr

/-- A row of the credit_sales table.  The amount_paid column has
SQL DEFAULT 0.0 and is not named by the INSERT used in
DatabaseManager.add_credit_sale, so a fresh row always carries 0. -/
structure CreditSaleRow where
  credit_id : Nat
  sale_id : Nat
  customer_name : String
  original_amount : ℚ
  amount_paid : ℚ
  balance : ℚ
  status : CreditStatus
deriving DecidableEq, Repr

/-- The persistent store: the tables of data/store.db relevant to the
transactional core, with the AUTOINCREMENT counters made explicit. -/
structure DBState where
  products : List Product
  sales : List SaleRow
  sale_items : List SaleItemRow
  stock_in_log : List StockInRow
  credit_sales : List CreditSaleRow
  next_sale_id : Nat
  next_credit_id : Nat
deriving DecidableEq, Repr

namespace DatabaseManager

/-- DatabaseManager.get_product_by_item_no: SELECT * FROM products WHERE
item_no = ? with fetchone, i.e. the first matching row; there is no
is_active filter in this query. -/
def get_product_by_item_no (db : DBState) (item_no : String) : Option Product :=
  db.products.find? (fun p => p.item_no == item_no)

/-- DatabaseManager.update_product_stock: UPDATE products SET
current_stock = current_stock + ? WHERE item_no = ?.  The UPDATE touches
every matching row (zero rows when the item code is unknown) and the
method returns True whether or not any row matched. -/
def update_product_stock (db : DBState) (item_no : String) (quantity_change : Int) :
    Bool × DBState :=
  (true,
    { db with
      products := db.products.map (fun p =>
        if p.item_no == item_no then
          { p with current_stock := p.current_stock + quantity_change }
        else p) })

/-- DatabaseManager.add_credit_sale: INSERT INTO credit_sales (sale_id,
customer_name, original_amount, balance, status, due_date); the
amount_paid column is filled by its SQL default 0.0.  Returns True on
success. -/
def add_credit_sale (db : DBState) (sale_id : Nat) (customer_name : String)
    (original_amount balance : ℚ) (status : CreditStatus) : Bool × DBState :=
  (true,
    { db with
      credit_sales := db.credit_sales ++
        [{ credit_id := db.next_credit_id
           sale_id := sale_id
           customer_name := customer_name
           original_amount := original_amount
           amount_paid := 0
           balance := balance
           status := status }]
      next_credit_id := db.next_credit_id + 1 })

/-- DatabaseManager.add_stock_in_log: INSERT INTO stock_in_log; returns
True on success. -/
def add_stock_in_log (db : DBState) (item_no : String) (quantity_added : Int)
    (supplier_name notes : String) : Bool × DBState :=
  (true,
    { db with
      stock_in_log := db.stock_in_log ++
        [{ item_no := item_no
           quantity_added := quantity_added
           supplier_name := supplier_name
           notes := notes }] })

end DatabaseManager

namespace InventoryManager

/-- InventoryManager.reorder_default_level, set to 4 in __init__. -/
def reorder_default_level : Int := 4

/-- InventoryManager.get_product_by_item_no simply delegates to the
database manager. -/
def get_product_by_item_no (db : DBState) (item_no : String) : Option Product :=
  DatabaseManager.get_product_by_item_no db item_no

/-- InventoryManager.update_stock: calls update_product_stock, then
re-fetches the product and, when the recomputed reorder flag
(current_stock < reorder_default_level) differs from the stored one,
writes the new flag with UPDATE products SET reorder_alert = ? WHERE
item_no = ?.  Returns True exactly when update_product_stock did. -/
def update_stock (db : DBState) (item_no : String) (quantity_change : Int) :
    Bool × DBState :=
  let r := DatabaseManager.update_product_stock db item_no quantity_change
  if r.1 then
    match DatabaseManager.get_product_by_item_no r.2 item_no with
    | some updated_product =>
        let new_reorder_alert : Bool := updated_product.current_stock < reorder_default_level
        if new_reorder_alert ≠ updated_product.reorder_alert then
          (true,
            { r.2 with
              products := r.2.products.map (fun p =>
                if p.item_no == item_no then { p with reorder_alert := new_reorder_alert }
                else p) })
        else (true, r.2)
    | none => (true, r.2)
  else (false, r.2)

end InventoryManager

namespace CreditSalesManager

/-- CreditSalesManager.add_credit_sale(sale_id, customer_name,
original_amount, due_date=None): rejects an empty customer name or a
falsy/non-positive original_amount, then stores the row through
DatabaseManager.add_credit_sale with balance = original_amount and
status 'Unpaid'. -/
def add_credit_sale (db : DBState) (sale_id : Nat) (customer_name : String)
    (original_amount : ℚ) : Bool × DBState :=
  if customer_name = "" ∨ original_amount = 0 then (false, db)
  else if original_amount ≤ 0 then (false, db)
  else
    let r := DatabaseManager.add_credit_sale db sale_id customer_name
      original_amount original_amount CreditStatus.Unpaid
    if r.1 then (true, r.2) else (false, db)

/-- CreditSalesManager.record_credit_payment: rejects a non-positive
amount; fetches the credit row (first match on credit_id), rejecting when
absent or already Paid; then sets new_amount_paid = amount_paid + amount,
new_balance = original_amount − new_amount_paid clamped at 0, recomputes
the status ('Paid' when the raw balance ≤ 0, else 'Partially Paid' when
new_amount_paid > 0, else 'Unpaid'), and persists all three columns in a
single UPDATE. -/
def record_credit_payment (db : DBState) (credit_id : Nat) (amount_paid : ℚ) :
    Bool × DBState :=
  if amount_paid ≤ 0 then (false, db)
  else
    match db.credit_sales.find? (fun c => c.credit_id == credit_id) with
    | none => (false, db)
    | some credit_sale =>
      if credit_sale.status = CreditStatus.Paid then (false, db)
      else
        let new_amount_paid := credit_sale.amount_paid + amount_paid
        let raw_balance := credit_sale.original_amount - new_amount_paid
        let status : CreditStatus :=
          if raw_balance ≤ 0 then CreditStatus.Paid
          else if 0 < new_amount_paid then CreditStatus.PartiallyPaid
          else CreditStatus.Unpaid
        let new_balance : ℚ := if raw_balance ≤ 0 then 0 else raw_balance
        (true,
          { db with
            credit_sales := db.credit_sales.map (fun c =>
              if c.credit_id == credit_id then
                { c with amount_paid := new_amount_paid
                         balance := new_balance
                         status := status }
              else c) })

end CreditSalesManager

/-- Looks up a credit row by id the way the source queries do: the first
row of credit_sales whose credit_id matches. -/
def findCredit (db : DBState) (credit_id : Nat) : Option CreditSaleRow :=
  db.credit_sales.find? (fun c => c.credit_id == credit_id)

/-- One value of the in-memory cart dictionary of POSManager:
{product_data, quantity, subtotal}. -/
structure CartItem where
  product_data : Product
  quantity : Int
  subtotal : ℚ
deriving DecidableEq, Repr

/-- The cart itself: a Python dict keyed by item_no, modelled as an
association list in insertion order (dicts preserve it; updating an
existing key keeps its position, a new key is appended). -/
abbrev Cart := List (String × CartItem)

/-- self.cart.get(item_no): the value stored under a key, if any. -/
def cartLookup (cart : Cart) (item_no : String) : Option CartItem :=
  (cart.find? (fun e => e.1 == item_no)).map Prod.snd

namespace POSManager

/-- POSManager.add_item_to_cart: looks the product up (no active-flag
filter is applied anywhere on this path), rejects a non-positive
quantity, rejects when quantity already in cart plus the new quantity
exceeds current_stock, and otherwise either sums the quantities of an
existing line — recomputing its subtotal as the summed quantity times
the selling price of the product fetched by THIS call, while the stored
product_data of the line is left as first captured — or appends a new
line whose product_data is the fetched product. -/
def add_item_to_cart (db : DBState) (cart : Cart) (item_no : String) (quantity : Int) :
    Bool × Cart :=
  match DatabaseManager.get_product_by_item_no db item_no with
  | none => (false, cart)
  | some product =>
    if quantity ≤ 0 then (false, cart)
    else
      let current_stock := product.current_stock
      let cart_quantity := ((cartLookup cart item_no).map CartItem.quantity).getD 0
      if current_stock < cart_quantity + quantity then (false, cart)
      else if (cartLookup cart item_no).isSome then
        (true, cart.map (fun e =>
          if e.1 == item_no then
            (e.1, { e.2 with
                    quantity := e.2.quantity + quantity
                    subtotal := ((e.2.quantity + quantity : Int) : ℚ) * product.selling_price })
          else e))
      else
        (true, cart ++ [(item_no,
          { product_data := product
            quantity := quantity
            subtotal := ((quantity : Int) : ℚ) * product.selling_price })])

/-- POSManager.remove_item_from_cart: deletes the key when present. -/
def remove_item_from_cart (cart : Cart) (item_no : String) : Bool × Cart :=
  if (cartLookup cart item_no).isSome then
    (true, cart.filter (fun e => ¬ e.1 == item_no))
  else (false, cart)

/-- POSManager.update_cart_item_quantity: requires the item in the cart
and the product still in the store, rejects a negative quantity and a
quantity above current_stock, removes the line at quantity 0, and
otherwise overwrites the quantity with the subtotal recomputed at the
freshly fetched selling price. -/
def update_cart_item_quantity (db : DBState) (cart : Cart) (item_no : String)
    (new_quantity : Int) : Bool × Cart :=
  if (cartLookup cart item_no).isNone then (false, cart)
  else
    match DatabaseManager.get_product_by_item_no db item_no with
    | none => (false, cart)
    | some product =>
      if new_quantity < 0 then (false, cart)
      else if product.current_stock < new_quantity then (false, cart)
      else if new_quantity = 0 then remove_item_from_cart cart item_no
      else
        (true, cart.map (fun e =>
          if e.1 == item_no then
            (e.1, { e.2 with
                    quantity := new_quantity
                    subtotal := ((new_quantity : Int) : ℚ) * product.selling_price })
          else e))

/-- POSManager.clear_cart: resets the cart to the empty dict. -/
def clear_cart : Cart := []

/-- The dictionary returned by POSManager.calculate_cart_total. -/
structure Totals where
  subtotal : ℚ
  discount : ℚ
  charges : ℚ
  grand_total : ℚ
deriving DecidableEq, Repr

/-- POSManager.calculate_cart_total: sums the line subtotals, clamps a
negative discount or charge to 0, and clamps the grand total at 0. -/
def calculate_cart_total (cart : Cart) (additional_charges discount_amount : ℚ) : Totals :=
  let subtotal := (cart.map (fun e => e.2.subtotal)).sum
  let discount := if discount_amount < 0 then 0 else discount_amount
  let charges := if additional_charges < 0 then 0 else additional_charges
  let gross_total := subtotal + charges
  let final_total := gross_total - discount
  { subtotal := subtotal
    discount := discount
    charges := charges
    grand_total := if final_total < 0 then 0 else final_total }

/-- One element of the sale_items_data list built by the re-validation
loop of process_sale (no sale_id yet: that is filled in at insert time). -/
structure SaleItemData where
  item_no : String
  quantity_sold : Int
  selling_price_at_sale : ℚ
  supplier_price_at_sale : ℚ
deriving DecidableEq, Repr

/-- The re-validation loop of process_sale, run before any write: for
each cart line in order it re-fetches the product and aborts (returning
the offending item code) when the product is gone or its current
persisted stock is below the requested quantity; otherwise it records
the line using the prices of the CACHED product_data captured when the
line entered the cart, not the re-fetched ones. -/
def buildSaleItems (db : DBState) : Cart → Except String (List SaleItemData)
  | [] => Except.ok []
  | (item_no, cart_item) :: rest =>
    match DatabaseManager.get_product_by_item_no db item_no with
    | none => Except.error item_no
    | some current_product_info =>
      if current_product_info.current_stock < cart_item.quantity then Except.error item_no
      else
        match buildSaleItems db rest with
        | Except.error e => Except.error e
        | Except.ok items =>
          Except.ok
            ({ item_no := item_no
               quantity_sold := cart_item.quantity
               selling_price_at_sale := cart_item.product_data.selling_price
               supplier_price_at_sale := cart_item.product_data.supplier_price } :: items)

/-- Step 2 of the transaction body of process_sale: for each collected
item, insert the sale_items row and run UPDATE products SET
current_stock = current_stock - ? WHERE item_no = ? on the open cursor.
The trailing inventory_manager.update_stock(item_no, 0) call of the loop
opens a SECOND connection while this one holds the write lock: its
UPDATE (adding 0) fails with a database-is-locked error that
update_product_stock catches, returning False, so update_stock skips the
reorder-alert recomputation; the call therefore leaves no trace in the
committed store and is modelled as the identity. -/
def insertItemsAndDeduct (sale_id : Nat) : DBState → List SaleItemData → DBState
  | db, [] => db
  | db, item :: rest =>
    let db1 :=
      { db with
        sale_items := db.sale_items ++
          [{ sale_id := sale_id
             item_no := item.item_no
             quantity_sold := item.quantity_sold
             selling_price_at_sale := item.selling_price_at_sale
             supplier_price_at_sale := item.supplier_price_at_sale }]
        products := db.products.map (fun p =>
          if p.item_no == item.item_no then
            { p with current_stock := p.current_stock - item.quantity_sold }
          else p) }
    insertItemsAndDeduct sale_id db1 rest

/-- The outcome component of the triple returned by process_sale. -/
inductive SaleOutcome
  | success (sale_id : Nat)
  | emptyCart
  | nonPositiveTotal
  | stockInsufficient (item_no : String)
  | customerNameRequired
  | creditRecordFailed
  | storageError
deriving DecidableEq, Repr

/-- Whether the outcome is the success branch. -/
def SaleOutcome.isSuccess : SaleOutcome → Bool
  | SaleOutcome.success _ => true
  | _ => false

/-- POSManager.process_sale.  Rejects an empty cart, recomputes the
grand total, rejects a non-positive total for a non-Credit payment, runs
the re-validation loop, then performs the transactional writes: insert
the sales row, insert each sale_items row and deduct its stock.  For a
Credit payment it then checks the customer name (rolling the whole
transaction back when empty) and calls
credit_sales_manager.add_credit_sale(sale_id, customer_name,
grand_total, grand_total, 'Unpaid') — five positional arguments against
the four-parameter signature (self, sale_id, customer_name,
original_amount, due_date=None), so Python raises TypeError at the call
site before the method body runs; the surrounding except-handler rolls
back and process_sale reports the generic error outcome.  On success the
transaction commits and the cart is cleared; on every failure path the
store and the cart are returned as they were. -/
def process_sale (db : DBState) (cart : Cart) (payment_type customer_name : String)
    (additional_charges discount_amount : ℚ) (notes : String) :
    SaleOutcome × DBState × Cart :=
  if cart.isEmpty then (SaleOutcome.emptyCart, db, cart)
  else
    let totals := calculate_cart_total cart additional_charges discount_amount
    let grand_total := totals.grand_total
    if grand_total ≤ 0 ∧ payment_type ≠ "Credit" then (SaleOutcome.nonPositiveTotal, db, cart)
    else
      match buildSaleItems db cart with
      | Except.error item_no => (SaleOutcome.stockInsufficient item_no, db, cart)
      | Except.ok sale_items_data =>
        let sale_id := db.next_sale_id
        let db1 :=
          { db with
            sales := db.sales ++
              [{ sale_id := sale_id
                 total_amount := grand_total
                 payment_type := payment_type
                 customer_name := if customer_name = "" then none else some customer_name
                 notes := if notes = "" then none else some notes }]
            next_sale_id := sale_id + 1 }
        let db2 := insertItemsAndDeduct sale_id db1 sale_items_data
        if payment_type = "Credit" then
          if customer_name = "" then (SaleOutcome.customerNameRequired, db, cart)
          else
            -- the arity-mismatched add_credit_sale call: TypeError, rollback
            (SaleOutcome.storageError, db, cart)
        else (SaleOutcome.success sale_id, db2, clear_cart)

end POSManager

namespace StockLogManager

/-- StockLogManager.log_stock_in: rejects a non-positive quantity and an
unknown item, appends the stock_in_log row, then adds the quantity to
current_stock through InventoryManager.update_stock. -/
def log_stock_in (db : DBState) (item_no : String) (quantity_added : Int)
    (supplier_name notes : String) : Bool × DBState :=
  if quantity_added ≤ 0 then (false, db)
  else
    match InventoryManager.get_product_by_item_no db item_no with
    | none => (false, db)
    | some _ =>
      let r1 := DatabaseManager.add_stock_in_log db item_no quantity_added supplier_name notes
      if r1.1 then
        let r2 := InventoryManager.update_stock r1.2 item_no quantity_added
        if r2.1 then (true, r2.2) else (false, r2.2)
      else (false, r1.2)

end StockLogManager

/-! ## The operation language for the stock invariant -/

/-- One user-level operation: a cart mutation, a stock-in event (the
only path that adds stock) or a sale commit.  The state acted on is the
pair (persistent store, in-memory cart). -/
inductive Op
  | addItem (item_no : String) (quantity : Int)
  | setQuantity (item_no : String) (new_quantity : Int)
  | removeItem (item_no : String)
  | clearCart
  | stockIn (item_no : String) (quantity : Int) (supplier_name notes : String)
  | commit (payment_type customer_name : String)
      (additional_charges discount_amount : ℚ) (notes : String)

/-- How each operation acts, through the corresponding manager entry
point. -/
def stepOp (s : DBState × Cart) : Op → DBState × Cart
  | Op.addItem i q => (s.1, (POSManager.add_item_to_cart s.1 s.2 i q).2)
  | Op.setQuantity i q => (s.1, (POSManager.update_cart_item_quantity s.1 s.2 i q).2)
  | Op.removeItem i => (s.1, (POSManager.remove_item_from_cart s.2 i).2)
  | Op.clearCart => (s.1, POSManager.clear_cart)
  | Op.stockIn i q sup n => ((StockLogManager.log_stock_in s.1 i q sup n).2, s.2)
  | Op.commit pt cn ac da n =>
    ((POSManager.process_sale s.1 s.2 pt cn ac da n).2.1,
     (POSManager.process_sale s.1 s.2 pt cn ac da n).2.2)

/-- Running a sequence of operations from a state. -/
def runOps (s : DBState × Cart) (ops : List Op) : DBState × Cart :=
  ops.foldl stepOp s

/-- Every product row holds a non-negative stock. -/
def stocksNonneg (db : DBState) : Prop :=
  ∀ p ∈ db.products, 0 ≤ p.current_stock

/-- The structural well-formedness the SQLite schema guarantees and the
cart dictionary maintains: non-negative stocks, the products primary
key (item_no) duplicate-free, and the cart keys duplicate-free. -/
def WFState (s : DBState × Cart) : Prop :=
  stocksNonneg s.1 ∧ (s.1.products.map Product.item_no).Nodup ∧
    (s.2.map Prod.fst).Nodup

/-! ## Sample data and operation sequences used by the theorems -/

/-- A sample store holding one open (Unpaid) credit entry. -/
def creditSampleRow : CreditSaleRow :=
  { credit_id := 1
    sale_id := 1
    customer_name := "Ana"
    original_amount := 100
    amount_paid := 0
    balance := 100
    status := CreditStatus.Unpaid }

/-- The store containing just creditSampleRow. -/
def creditSampleDB : DBState :=
  { products := []
    sales := []
    sale_items := []
    stock_in_log := []
    credit_sales := [creditSampleRow]
    next_sale_id := 2
    next_credit_id := 2 }

/-- A list of (credit_id, amount) payments applied in order through
record_credit_payment, each against the store the previous one left. -/
def applyPayments (db : DBState) (ps : List (Nat × ℚ)) : DBState :=
  ps.foldl (fun d p => (CreditSalesManager.record_credit_payment d p.1 p.2).2) db

/-- A sample store holding one fully Paid credit entry. -/
def paidSampleRow : CreditSaleRow :=
  { credit_id := 1
    sale_id := 1
    customer_name := "Ana"
    original_amount := 100
    amount_paid := 100
    balance := 0
    status := CreditStatus.Paid }

/-- The store containing just paidSampleRow. -/
def paidSampleDB : DBState :=
  { products := []
    sales := []
    sale_items := []
    stock_in_log := []
    credit_sales := [paidSampleRow]
    next_sale_id := 2
    next_credit_id := 2 }

/-- A store with no products at all. -/
def noProductsDB : DBState :=
  { products := []
    sales := []
    sale_items := []
    stock_in_log := []
    credit_sales := []
    next_sale_id := 1
    next_credit_id := 1 }

/-- A product flagged inactive (is_active = 0) but still stocked. -/
def inactiveProduct : Product :=
  { item_no := "SKU1"
    item_name := "Discontinued thing"
    supplier_price := 3
    selling_price := 5
    current_stock := 10
    reorder_alert := false
    reorder_qty := 5
    is_active := false }

/-- A store holding only the inactive product. -/
def inactiveDB : DBState :=
  { products := [inactiveProduct]
    sales := []
    sale_items := []
    stock_in_log := []
    credit_sales := []
    next_sale_id := 1
    next_credit_id := 1 }

/-- The stocked product before the price change (sells at 5). -/
def priceProductOld : Product :=
  { item_no := "SKU1"
    item_name := "Thing"
    supplier_price := 3
    selling_price := 5
    current_stock := 10
    reorder_alert := false
    reorder_qty := 5
    is_active := true }

/-- The same product after its selling price was changed to 7. -/
def priceProductNew : Product :=
  { priceProductOld with selling_price := 7 }

/-- The store before the price change. -/
def priceDBold : DBState :=
  { products := [priceProductOld]
    sales := []
    sale_items := []
    stock_in_log := []
    credit_sales := []
    next_sale_id := 1
    next_credit_id := 1 }

/-- The store after the price change. -/
def priceDBnew : DBState :=
  { priceDBold with products := [priceProductNew] }

/-- The cart produced by adding 2 units at the old price: the line's
captured product_data and its 2 × 5 subtotal. -/
def priceCartOld : Cart :=
  [("SKU1", { product_data := priceProductOld, quantity := 2, subtotal := 10 })]

/-- A cart holding 3 units of the stocked, active product priced 5. -/
def c1Cart : Cart :=
  [("SKU1", { product_data := priceProductOld, quantity := 3, subtotal := 15 })]

/-- The store where SKU1's persisted stock has dropped to 2 while the
cart still asks for 3. -/
def lowStockDB : DBState :=
  { priceDBold with products := [{ priceProductOld with current_stock := 2 }] }

/-! ## Helper lemmas -/

/-- Mapping a key-preserving function over a list commutes with finding
the first element carrying a given key. -/
theorem find_map_of_key_preserving {α κ : Type} [BEq κ] (key : α → κ) (f : α → α)
    (hf : ∀ a, key (f a) = key a) (l : List α) (k : κ) :
    (l.map f).find? (fun a => key a == k) = (l.find? (fun a => key a == k)).map f := by
  induction l with
  | nil => rfl
  | cons x xs ih =>
    simp only [List.map_cons, List.find?]
    rw [hf x]
    cases hx : (key x == k)
    · simpa using ih
    · simp

/-- The updater used by record_credit_payment preserves credit ids. -/
theorem credit_update_preserves_id (credit_id : Nat) (new_amount_paid new_balance : ℚ)
    (status : CreditStatus) (c : CreditSaleRow) :
    (if c.credit_id == credit_id then
        { c with amount_paid := new_amount_paid, balance := new_balance,
                 status := status }
      else c).credit_id = c.credit_id := by
  by_cases h : (c.credit_id == credit_id) = true <;> simp [h]

/-- A successful record_credit_payment leaves every credit row whose id
differs from the paid one untouched, and in particular the first row
found under any other id. -/
theorem record_credit_payment_found (db : DBState) (credit_id : Nat) (amount : ℚ)
    (cs : CreditSaleRow) (hfind : findCredit db credit_id = some cs)
    (hpos : 0 < amount) (hnp : cs.status ≠ CreditStatus.Paid) :
    CreditSalesManager.record_credit_payment db credit_id amount =
      (true,
        { db with
          credit_sales := db.credit_sales.map (fun c =>
            if c.credit_id == credit_id then
              { c with
                amount_paid := cs.amount_paid + amount
                balance :=
                  if cs.original_amount - (cs.amount_paid + amount) ≤ 0 then 0
                  else cs.original_amount - (cs.amount_paid + amount)
                status :=
                  if cs.original_amount - (cs.amount_paid + amount) ≤ 0 then
                    CreditStatus.Paid
                  else if 0 < cs.amount_paid + amount then CreditStatus.PartiallyPaid
                  else CreditStatus.Unpaid }
            else c) }) := by
  unfold CreditSalesManager.record_credit_payment
  rw [if_neg (not_le.mpr hpos)]
  unfold findCredit at hfind
  rw [hfind]
  simp only [if_neg hnp]

/-! ## C2: credit balance reconciliation -/

/-- C2: for every credit entry, every successful record_credit_payment
call increases the stored amount_paid by exactly the payment amount and
leaves the stored balance equal to max(0, original_amount − amount_paid);
a payment pushing amount_paid above original_amount is accepted (the call
succeeds) with the balance clamped to 0, and amount_paid, balance and the
recomputed status are persisted together by the one update.  Quantified
over an arbitrary store state, this holds after each call of any
sequence of successful calls. -/
theorem record_credit_payment_reconciles (db : DBState) (credit_id : Nat) (amount : ℚ)
    (cs : CreditSaleRow) (hfind : findCredit db credit_id = some cs)
    (hpos : 0 < amount) (hnp : cs.status ≠ CreditStatus.Paid) :
    (CreditSalesManager.record_credit_payment db credit_id amount).1 = true ∧
    ∃ cs₂,
      findCredit (CreditSalesManager.record_credit_payment db credit_id amount).2 credit_id
        = some cs₂ ∧
      cs₂.amount_paid = cs.amount_paid + amount ∧
      cs₂.original_amount = cs.original_amount ∧
      cs₂.balance = max 0 (cs₂.original_amount - cs₂.amount_paid) ∧
      cs₂.status =
        (if cs.original_amount - (cs.amount_paid + amount) ≤ 0 then CreditStatus.Paid
         else if 0 < cs.amount_paid + amount then CreditStatus.PartiallyPaid
         else CreditStatus.Unpaid) := by
  have hfind' : db.credit_sales.find? (fun c => c.credit_id == credit_id) = some cs := hfind
  have hkey : (cs.credit_id == credit_id) = true := by
    have h := List.find?_some hfind'
    simpa using h
  rw [record_credit_payment_found db credit_id amount cs hfind hpos hnp]
  refine ⟨rfl, ?_⟩
  have hmap := find_map_of_key_preserving (fun c => c.credit_id)
    (fun c =>
      if c.credit_id == credit_id then
        { c with
          amount_paid := cs.amount_paid + amount
          balance :=
            if cs.original_amount - (cs.amount_paid + amount) ≤ 0 then 0
            else cs.original_amount - (cs.amount_paid + amount)
          status :=
            if cs.original_amount - (cs.amount_paid + amount) ≤ 0 then CreditStatus.Paid
            else if 0 < cs.amount_paid + amount then CreditStatus.PartiallyPaid
            else CreditStatus.Unpaid }
      else c)
    (fun c => credit_update_preserves_id credit_id (cs.amount_paid + amount)
      (if cs.original_amount - (cs.amount_paid + amount) ≤ 0 then 0
       else cs.original_amount - (cs.amount_paid + amount))
      (if cs.original_amount - (cs.amount_paid + amount) ≤ 0 then CreditStatus.Paid
       else if 0 < cs.amount_paid + amount then CreditStatus.PartiallyPaid
       else CreditStatus.Unpaid) c)
    db.credit_sales credit_id
  unfold findCredit
  rw [hmap, hfind', Option.map_some']
  refine ⟨_, rfl, ?_, ?_, ?_, ?_⟩
  · simp [hkey]
  · simp [hkey]
  · simp [hkey]
    rcases le_or_lt cs.original_amount (cs.amount_paid + amount) with hb | hb
    · rw [if_pos hb]
      exact (max_eq_left (sub_nonpos.mpr hb)).symm
    · rw [if_neg (not_le.mpr hb)]
      exact (max_eq_right (sub_nonneg.mpr hb.le)).symm
  · simp [hkey]

/-- Witness for C2 at a concrete input: a 40 payment against the 100
entry succeeds and reconciles. -/
theorem record_credit_payment_reconciles_witness :
    (CreditSalesManager.record_credit_payment creditSampleDB 1 40).1 = true ∧
    ∃ cs₂,
      findCredit (CreditSalesManager.record_credit_payment creditSampleDB 1 40).2 1
        = some cs₂ ∧
      cs₂.amount_paid = creditSampleRow.amount_paid + 40 ∧
      cs₂.original_amount = creditSampleRow.original_amount ∧
      cs₂.balance = max 0 (cs₂.original_amount - cs₂.amount_paid) ∧
      cs₂.status =
        (if creditSampleRow.original_amount - (creditSampleRow.amount_paid + 40) ≤ 0 then
          CreditStatus.Paid
         else if 0 < creditSampleRow.amount_paid + 40 then CreditStatus.PartiallyPaid
         else CreditStatus.Unpaid) :=
  record_credit_payment_reconciles creditSampleDB 1 40 creditSampleRow (by rfl)
    (by norm_num) (by decide)

/-! ## C5: status monotonicity of a Paid entry -/

/-- A record_credit_payment call, successful or not and whatever id it
targets, leaves a Paid credit entry exactly as it was. -/
theorem record_payment_paid_frame (db : DBState) (credit_id : Nat) (cs : CreditSaleRow)
    (hfind : findCredit db credit_id = some cs) (hpaid : cs.status = CreditStatus.Paid)
    (cid : Nat) (amt : ℚ) :
    findCredit (CreditSalesManager.record_credit_payment db cid amt).2 credit_id = some cs := by
  have hfind' : db.credit_sales.find? (fun c => c.credit_id == credit_id) = some cs := hfind
  have hkeq : cs.credit_id = credit_id := by
    have h := List.find?_some hfind'
    simpa using h
  unfold CreditSalesManager.record_credit_payment
  by_cases hamt : amt ≤ 0
  · rw [if_pos hamt]; exact hfind
  · rw [if_neg hamt]
    cases hf2 : db.credit_sales.find? (fun c => c.credit_id == cid) with
    | none => exact hfind
    | some cs₂ =>
      by_cases hp2 : cs₂.status = CreditStatus.Paid
      · simp only [hp2, if_pos rfl]
        exact hfind
      · simp only [if_neg hp2]
        have hne : (cs.credit_id == cid) = false := by
          rw [beq_eq_false_iff_ne]
          intro h
          rw [hkeq] at h
          subst h
          rw [hfind'] at hf2
          cases hf2
          exact hp2 hpaid
        have hmap := find_map_of_key_preserving (fun c => c.credit_id)
          (fun c =>
            if c.credit_id == cid then
              { c with
                amount_paid := cs₂.amount_paid + amt
                balance :=
                  if cs₂.original_amount - (cs₂.amount_paid + amt) ≤ 0 then 0
                  else cs₂.original_amount - (cs₂.amount_paid + amt)
                status :=
                  if cs₂.original_amount - (cs₂.amount_paid + amt) ≤ 0 then CreditStatus.Paid
                  else if 0 < cs₂.amount_paid + amt then CreditStatus.PartiallyPaid
                  else CreditStatus.Unpaid }
            else c)
          (fun c => credit_update_preserves_id cid (cs₂.amount_paid + amt)
            (if cs₂.original_amount - (cs₂.amount_paid + amt) ≤ 0 then 0
             else cs₂.original_amount - (cs₂.amount_paid + amt))
            (if cs₂.original_amount - (cs₂.amount_paid + amt) ≤ 0 then CreditStatus.Paid
             else if 0 < cs₂.amount_paid + amt then CreditStatus.PartiallyPaid
             else CreditStatus.Unpaid) c)
          db.credit_sales credit_id
        unfold findCredit
        rw [hmap, hfind', Option.map_some']
        simp [hne]

/-- C5: once a credit entry is Paid, every record_credit_payment call on
it fails (already-paid outcome) leaving the whole store unchanged, and
under any sequence of payment calls the entry — its status included —
never changes, so the status never regresses from Paid. -/
theorem paid_credit_entry_frozen (db : DBState) (credit_id : Nat) (cs : CreditSaleRow)
    (hfind : findCredit db credit_id = some cs) (hpaid : cs.status = CreditStatus.Paid) :
    (∀ amount : ℚ,
      CreditSalesManager.record_credit_payment db credit_id amount = (false, db)) ∧
    (∀ ps : List (Nat × ℚ), findCredit (applyPayments db ps) credit_id = some cs) := by
  have hfind' : db.credit_sales.find? (fun c => c.credit_id == credit_id) = some cs := hfind
  constructor
  · intro amount
    unfold CreditSalesManager.record_credit_payment
    by_cases hamt : amount ≤ 0
    · rw [if_pos hamt]
    · rw [if_neg hamt]
      rw [hfind']
      simp [hpaid]
  · have main : ∀ ps (d : DBState), findCredit d credit_id = some cs →
        findCredit (applyPayments d ps) credit_id = some cs := by
      intro ps
      induction ps with
      | nil => intro d h; exact h
      | cons p rest ih =>
        intro d h
        exact ih _ (record_payment_paid_frame d credit_id cs h hpaid p.1 p.2)
    exact fun ps => main ps db hfind

/-- Witness for C5 at a concrete input: a further 10 payment fails and a
two-payment sequence leaves the Paid entry untouched. -/
theorem paid_credit_entry_frozen_witness :
    CreditSalesManager.record_credit_payment paidSampleDB 1 10 = (false, paidSampleDB) ∧
    findCredit (applyPayments paidSampleDB [(1, 10), (1, 5)]) 1 = some paidSampleRow := by
  have h := paid_credit_entry_frozen paidSampleDB 1 paidSampleRow (by rfl) (by rfl)
  exact ⟨h.1 10, h.2 [(1, 10), (1, 5)]⟩

/-! ## C9: stock adjustment on an unknown item code -/

/-- The UPDATE of update_product_stock matches no row when the item code
is unknown, and the method still reports success. -/
theorem update_product_stock_unknown (db : DBState) (item_no : String) (delta : Int)
    (h : DatabaseManager.get_product_by_item_no db item_no = none) :
    DatabaseManager.update_product_stock db item_no delta = (true, db) := by
  unfold DatabaseManager.get_product_by_item_no at h
  have hall := List.find?_eq_none.mp h
  unfold DatabaseManager.update_product_stock
  have hmap : db.products.map (fun p =>
      if p.item_no == item_no then
        { p with current_stock := p.current_stock + delta }
      else p) = db.products := by
    conv_rhs => rw [← List.map_id db.products]
    apply List.map_congr_left
    intro p hp
    simp only [id]
    rw [if_neg (hall p hp)]
  rw [hmap]

/-- C9 amended: for an item code with no matching product, the
stock-adjustment entry point InventoryManager.update_stock reports
success (True) for every delta — the UPDATE simply matches no rows and
no NotFound check exists — and the store is left unchanged. -/
theorem update_stock_unknown_item_reports_success (db : DBState) (item_no : String)
    (delta : Int) (h : DatabaseManager.get_product_by_item_no db item_no = none) :
    InventoryManager.update_stock db item_no delta = (true, db) := by
  unfold InventoryManager.update_stock
  rw [update_product_stock_unknown db item_no delta h]
  simp [h]

/-- Counterexample to C9 as stated: update_stock on an unknown item code
returns success (True), not a NotFound failure. -/
theorem update_stock_unknown_item_cex :
    InventoryManager.update_stock noProductsDB "GHOST" 5 = (true, noProductsDB) := by
  rfl

/-- Witness for the amended C9 at a concrete input. -/
theorem update_stock_unknown_item_reports_success_witness :
    InventoryManager.update_stock noProductsDB "GHOST" (-3) = (true, noProductsDB) :=
  update_stock_unknown_item_reports_success noProductsDB "GHOST" (-3) (by rfl)

/-! ## C8: adding an inactive product to the cart -/

/-- C8 amended: add_item_to_cart never consults the active flag — the
lookup it uses has no is_active filter and no Inactive check follows —
so for any product on record (active or not), a positive quantity within
the available stock is accepted into the cart. -/
theorem add_item_ignores_active_flag (db : DBState) (cart : Cart) (item_no : String)
    (quantity : Int) (p : Product)
    (hp : DatabaseManager.get_product_by_item_no db item_no = some p)
    (hq : 0 < quantity)
    (hs : ((cartLookup cart item_no).map CartItem.quantity).getD 0 + quantity ≤
      p.current_stock) :
    (POSManager.add_item_to_cart db cart item_no quantity).1 = true := by
  unfold POSManager.add_item_to_cart
  rw [hp]
  dsimp only
  rw [if_neg (not_le.mpr hq), if_neg (not_lt.mpr hs)]
  by_cases h : ((cartLookup cart item_no).isSome) = true
  · simp [h]
  · simp [h]

/-- Counterexample to C8 as stated: adding an inactive product with a
positive quantity SUCCEEDS (and changes the cart) instead of failing
with an Inactive outcome. -/
theorem add_inactive_item_succeeds_cex :
    (POSManager.add_item_to_cart inactiveDB [] "SKU1" 2).1 = true ∧
    (POSManager.add_item_to_cart inactiveDB [] "SKU1" 2).2 ≠ [] := by
  constructor
  · rfl
  · intro h
    have := congrArg List.length h
    simp [POSManager.add_item_to_cart, inactiveDB, inactiveProduct,
      DatabaseManager.get_product_by_item_no, cartLookup] at this

/-- Witness for the amended C8 at a concrete input: the product is
inactive, yet the add succeeds. -/
theorem add_item_ignores_active_flag_witness :
    inactiveProduct.is_active = false ∧
    (POSManager.add_item_to_cart inactiveDB [] "SKU1" 2).1 = true :=
  ⟨rfl, add_item_ignores_active_flag inactiveDB [] "SKU1" 2 inactiveProduct (by rfl)
    (by decide) (by decide)⟩

/-! ## C7: price used when re-adding an item already in the cart -/

/-- Updating the value under a matching key leaves every pair's key
unchanged. -/
theorem pair_update_preserves_fst {β : Type} (item_no : String) (g : String × β → β)
    (e : String × β) :
    (if e.1 == item_no then (e.1, g e) else e).1 = e.1 := by
  by_cases h : (e.1 == item_no) = true <;> simp [h]

/-- C7 amended: re-adding an item already in the cart sums the
quantities, but the new subtotal is the summed quantity times the
selling price of the product RE-FETCHED by this add — only the line's
stored product_data keeps the originally captured prices — so a price
change between the two adds does alter the running total. -/
theorem add_existing_item_uses_fresh_price (db : DBState) (cart : Cart) (item_no : String)
    (quantity : Int) (p : Product) (ci : CartItem)
    (hp : DatabaseManager.get_product_by_item_no db item_no = some p)
    (hci : cartLookup cart item_no = some ci)
    (hq : 0 < quantity)
    (hs : ci.quantity + quantity ≤ p.current_stock) :
    (POSManager.add_item_to_cart db cart item_no quantity).1 = true ∧
    cartLookup (POSManager.add_item_to_cart db cart item_no quantity).2 item_no =
      some { product_data := ci.product_data
             quantity := ci.quantity + quantity
             subtotal := ((ci.quantity + quantity : Int) : ℚ) * p.selling_price } := by
  cases hf : cart.find? (fun e => e.1 == item_no) with
  | none =>
    unfold cartLookup at hci
    rw [hf] at hci
    cases hci
  | some e₀ =>
    have he₀ : e₀.2 = ci := by
      unfold cartLookup at hci
      rw [hf] at hci
      simpa using hci
    have hkey : (e₀.1 == item_no) = true := by
      have h := List.find?_some hf
      simpa using h
    have hcq : cartLookup cart item_no = some ci := hci
    unfold POSManager.add_item_to_cart
    rw [hp]
    dsimp only
    rw [hcq]
    dsimp only [Option.map_some', Option.getD_some]
    rw [if_neg (not_le.mpr hq), if_neg (not_lt.mpr hs)]
    simp only [Option.isSome_some, if_true]
    refine ⟨by trivial, ?_⟩
    have hmap := find_map_of_key_preserving (fun e : String × CartItem => e.1)
      (fun e =>
        if e.1 == item_no then
          (e.1, { e.2 with
                  quantity := e.2.quantity + quantity
                  subtotal := ((e.2.quantity + quantity : Int) : ℚ) * p.selling_price })
        else e)
      (fun e => pair_update_preserves_fst item_no
        (fun e => { e.2 with
                    quantity := e.2.quantity + quantity
                    subtotal := ((e.2.quantity + quantity : Int) : ℚ) * p.selling_price }) e)
      cart item_no
    unfold cartLookup
    rw [hmap, hf, Option.map_some', Option.map_some']
    rw [← he₀]
    simp [hkey]

/-- Counterexample to C7 as stated: the cart built by adding 2 units at
price 5 is priceCartOld; re-adding 1 unit after the price became 7 gives
the line subtotal 3 × 7 = 21, not the 3 × 5 = 15 the claim's
originally-captured-price rule predicts. -/
theorem add_existing_item_refetches_price_cex :
    (POSManager.add_item_to_cart priceDBold [] "SKU1" 2).2 = priceCartOld ∧
    ((POSManager.add_item_to_cart priceDBnew priceCartOld "SKU1" 1).2.map
      (fun e => e.2.subtotal)) = [21] ∧
    (21 : ℚ) ≠ 3 * priceProductOld.selling_price := by
  refine ⟨?_, ?_, ?_⟩
  · simp [POSManager.add_item_to_cart, priceDBold, priceProductOld, priceCartOld,
      DatabaseManager.get_product_by_item_no, cartLookup]
    norm_num
  · simp [POSManager.add_item_to_cart, priceDBnew, priceDBold, priceProductNew,
      priceProductOld, priceCartOld, DatabaseManager.get_product_by_item_no, cartLookup]
    norm_num
  · simp [priceProductOld]
    norm_num

/-- Witness for the amended C7 at a concrete input. -/
theorem add_existing_item_uses_fresh_price_witness :
    (POSManager.add_item_to_cart priceDBnew priceCartOld "SKU1" 1).1 = true ∧
    cartLookup (POSManager.add_item_to_cart priceDBnew priceCartOld "SKU1" 1).2 "SKU1" =
      some { product_data := priceProductOld
             quantity := 2 + 1
             subtotal := ((2 + 1 : Int) : ℚ) * priceProductNew.selling_price } :=
  add_existing_item_uses_fresh_price priceDBnew priceCartOld "SKU1" 1 priceProductNew
    { product_data := priceProductOld, quantity := 2, subtotal := 10 }
    (by rfl) (by rfl) (by decide) (by decide)

/-! ## C6: prices recorded on the sale line items -/

/-- What a successful re-validation pass yields: the collected rows are
exactly the cart lines carrying their CACHED product_data prices, and
every cart line was checked against the product's current persisted
stock. -/
theorem buildSaleItems_ok (db : DBState) :
    ∀ (cart : Cart) (items : List POSManager.SaleItemData),
      POSManager.buildSaleItems db cart = Except.ok items →
      items = cart.map (fun e =>
        { item_no := e.1
          quantity_sold := e.2.quantity
          selling_price_at_sale := e.2.product_data.selling_price
          supplier_price_at_sale := e.2.product_data.supplier_price }) ∧
      ∀ e ∈ cart, ∃ p, DatabaseManager.get_product_by_item_no db e.1 = some p ∧
        e.2.quantity ≤ p.current_stock := by
  intro cart
  induction cart with
  | nil =>
    intro items h
    rw [POSManager.buildSaleItems] at h
    cases h
    exact ⟨rfl, by simp⟩
  | cons e rest ih =>
    intro items h
    obtain ⟨k, ci⟩ := e
    rw [POSManager.buildSaleItems] at h
    cases hp : DatabaseManager.get_product_by_item_no db k with
    | none => rw [hp] at h; cases h
    | some p =>
      rw [hp] at h
      dsimp only at h
      by_cases hst : p.current_stock < ci.quantity
      · rw [if_pos hst] at h; cases h
      · rw [if_neg hst] at h
        cases hb : POSManager.buildSaleItems db rest with
        | error e₂ => rw [hb] at h; cases h
        | ok items₂ =>
          rw [hb] at h
          cases h
          obtain ⟨hmap, hval⟩ := ih items₂ hb
          refine ⟨by simp [hmap], ?_⟩
          intro e he
          rcases List.mem_cons.mp he with he | he
          · subst he
            exact ⟨p, hp, not_lt.mp hst⟩
          · exact hval e he

/-- The transaction loop appends exactly one sale_items row per
collected item, carrying the collected prices and the new sale id. -/
theorem insertItemsAndDeduct_sale_items (sale_id : Nat) :
    ∀ (items : List POSManager.SaleItemData) (db : DBState),
      (POSManager.insertItemsAndDeduct sale_id db items).sale_items =
        db.sale_items ++ items.map (fun it =>
          { sale_id := sale_id
            item_no := it.item_no
            quantity_sold := it.quantity_sold
            selling_price_at_sale := it.selling_price_at_sale
            supplier_price_at_sale := it.supplier_price_at_sale }) := by
  intro items
  induction items with
  | nil => intro db; simp [POSManager.insertItemsAndDeduct]
  | cons it rest ih =>
    intro db
    rw [POSManager.insertItemsAndDeduct, ih]
    simp

/-- C6 amended: the sale line items written by a successful commit carry
the selling and supplier prices CACHED in each cart line's product_data —
captured when the line first entered the cart — not the values persisted
at the instant of the commit write; a price change between add-time and
commit is therefore not reflected in selling_price_at_sale or
supplier_price_at_sale. -/
theorem process_sale_records_cached_prices (db : DBState) (cart : Cart)
    (payment_type customer_name : String) (additional_charges discount_amount : ℚ)
    (notes : String) (items : List POSManager.SaleItemData)
    (hne : cart.isEmpty = false)
    (hpt : payment_type ≠ "Credit")
    (hgt : ¬ (POSManager.calculate_cart_total cart additional_charges
      discount_amount).grand_total ≤ 0)
    (hbuild : POSManager.buildSaleItems db cart = Except.ok items) :
    (POSManager.process_sale db cart payment_type customer_name additional_charges
        discount_amount notes).1 = POSManager.SaleOutcome.success db.next_sale_id ∧
    (POSManager.process_sale db cart payment_type customer_name additional_charges
        discount_amount notes).2.1.sale_items =
      db.sale_items ++ cart.map (fun e =>
        { sale_id := db.next_sale_id
          item_no := e.1
          quantity_sold := e.2.quantity
          selling_price_at_sale := e.2.product_data.selling_price
          supplier_price_at_sale := e.2.product_data.supplier_price }) := by
  obtain ⟨hitems, -⟩ := buildSaleItems_ok db cart items hbuild
  unfold POSManager.process_sale
  rw [if_neg (by simp [hne])]
  rw [if_neg (fun h => hgt h.1)]
  rw [hbuild]
  dsimp only
  rw [if_neg hpt]
  refine ⟨rfl, ?_⟩
  rw [insertItemsAndDeduct_sale_items]
  dsimp only
  rw [hitems, List.map_map]
  rfl

/-- Counterexample to C6 as stated: committing priceCartOld (captured at
selling price 5) after the price became 7 records
selling_price_at_sale = 5, not the current persisted 7. -/
theorem sale_items_record_addtime_prices_cex :
    (POSManager.process_sale priceDBnew priceCartOld "Cash" "" 0 0 "").1 =
      POSManager.SaleOutcome.success 1 ∧
    ((POSManager.process_sale priceDBnew priceCartOld "Cash" "" 0 0 "").2.1.sale_items.map
      (fun r => r.selling_price_at_sale)) = [5] ∧
    priceProductNew.selling_price = 7 ∧ (5 : ℚ) ≠ 7 := by
  refine ⟨?_, ?_, by rfl, by norm_num⟩
  · simp [POSManager.process_sale, POSManager.calculate_cart_total,
      POSManager.buildSaleItems, POSManager.insertItemsAndDeduct, POSManager.clear_cart,
      priceDBnew, priceDBold, priceProductNew, priceProductOld, priceCartOld,
      DatabaseManager.get_product_by_item_no]
    norm_num
  · simp [POSManager.process_sale, POSManager.calculate_cart_total,
      POSManager.buildSaleItems, POSManager.insertItemsAndDeduct, POSManager.clear_cart,
      priceDBnew, priceDBold, priceProductNew, priceProductOld, priceCartOld,
      DatabaseManager.get_product_by_item_no]
    norm_num

/-- Witness for the amended C6 at a concrete input. -/
theorem process_sale_records_cached_prices_witness :
    (POSManager.process_sale priceDBnew priceCartOld "Cash" "" 0 0 "").1 =
      POSManager.SaleOutcome.success priceDBnew.next_sale_id ∧
    (POSManager.process_sale priceDBnew priceCartOld "Cash" "" 0 0 "").2.1.sale_items =
      priceDBnew.sale_items ++ priceCartOld.map (fun e =>
        { sale_id := priceDBnew.next_sale_id
          item_no := e.1
          quantity_sold := e.2.quantity
          selling_price_at_sale := e.2.product_data.selling_price
          supplier_price_at_sale := e.2.product_data.supplier_price }) :=
  process_sale_records_cached_prices priceDBnew priceCartOld "Cash" "" 0 0 ""
    [{ item_no := "SKU1", quantity_sold := 2, selling_price_at_sale := 5,
       supplier_price_at_sale := 3 }]
    (by rfl) (by decide)
    (by simp [POSManager.calculate_cart_total, priceCartOld]; norm_num)
    (by rfl)

/-! ## C1: committing a credit sale -/

/-- Under exactly the conditions of a well-formed credit sale — a
non-empty cart, a non-empty customer name and re-validation passing —
process_sale reaches the credit_sales_manager.add_credit_sale call,
which is made with five positional arguments against a four-parameter
signature; the TypeError it raises lands in the except-handler, the
transaction is rolled back, and the call reports failure with the store
and cart unchanged. -/
theorem process_sale_credit_call_error (db : DBState) (cart : Cart)
    (customer_name : String) (additional_charges discount_amount : ℚ) (notes : String)
    (items : List POSManager.SaleItemData)
    (hne : cart.isEmpty = false) (hcn : customer_name ≠ "")
    (hbuild : POSManager.buildSaleItems db cart = Except.ok items) :
    POSManager.process_sale db cart "Credit" customer_name additional_charges
      discount_amount notes = (POSManager.SaleOutcome.storageError, db, cart) := by
  unfold POSManager.process_sale
  rw [if_neg (by simp [hne])]
  rw [if_neg (fun h => h.2 rfl)]
  rw [hbuild]
  dsimp only
  rw [if_pos rfl, if_neg hcn]

/-- C1: demonstration of the code bug at a concrete input.  The store
has 10 units of SKU1 on hand, the cart asks for 3, payment type is
Credit and the customer name is non-empty — every condition of the claim
holds — yet process_sale fails through the except-branch (TypeError on
the arity-mismatched add_credit_sale call), leaves the store and cart
untouched, and no Credit Entry exists afterwards. -/
theorem credit_commit_fails_no_credit_entry :
    POSManager.process_sale priceDBold c1Cart "Credit" "Ana" 0 0 "" =
      (POSManager.SaleOutcome.storageError, priceDBold, c1Cart) ∧
    priceDBold.credit_sales = [] :=
  ⟨process_sale_credit_call_error priceDBold c1Cart "Ana" 0 0 ""
    [{ item_no := "SKU1", quantity_sold := 3, selling_price_at_sale := 5,
       supplier_price_at_sale := 3 }]
    (by rfl) (by decide) (by rfl), rfl⟩

/-! ## C4: aborted commit leaves all persisted state untouched -/

/-- C4: when the per-line re-validation fails — some cart line's product
is gone or its current persisted stock is below the requested quantity,
i.e. the collection loop returns an error — process_sale returns a
non-success outcome and the store is exactly as before (so no sales row,
sale_items row, stock change or credit_sales row from this attempt
exists), with the cart also untouched. -/
theorem process_sale_revalidation_abort_leaves_state (db : DBState) (cart : Cart)
    (payment_type customer_name : String) (additional_charges discount_amount : ℚ)
    (notes : String) (bad : String)
    (hbuild : POSManager.buildSaleItems db cart = Except.error bad) :
    (POSManager.process_sale db cart payment_type customer_name additional_charges
      discount_amount notes).2.1 = db ∧
    (POSManager.process_sale db cart payment_type customer_name additional_charges
      discount_amount notes).2.2 = cart ∧
    ∀ sid, (POSManager.process_sale db cart payment_type customer_name additional_charges
      discount_amount notes).1 ≠ POSManager.SaleOutcome.success sid := by
  by_cases hc : cart.isEmpty = true
  · rw [List.isEmpty_iff] at hc
    subst hc
    rw [POSManager.buildSaleItems] at hbuild
    cases hbuild
  · unfold POSManager.process_sale
    rw [if_neg hc]
    by_cases hg : (POSManager.calculate_cart_total cart additional_charges
        discount_amount).grand_total ≤ 0 ∧ payment_type ≠ "Credit"
    · rw [if_pos hg]
      exact ⟨rfl, rfl, fun sid h => by cases h⟩
    · rw [if_neg hg, hbuild]
      exact ⟨rfl, rfl, fun sid h => by cases h⟩

/-- Witness for C4 at a concrete input: stock raced down to 2 under a
cart of 3 — the commit aborts with no state change. -/
theorem process_sale_revalidation_abort_witness :
    (POSManager.process_sale lowStockDB c1Cart "Cash" "" 0 0 "").2.1 = lowStockDB ∧
    (POSManager.process_sale lowStockDB c1Cart "Cash" "" 0 0 "").2.2 = c1Cart ∧
    (POSManager.process_sale lowStockDB c1Cart "Cash" "" 0 0 "").1 ≠
      POSManager.SaleOutcome.success 1 := by
  have h := process_sale_revalidation_abort_leaves_state lowStockDB c1Cart "Cash" "" 0 0 ""
    "SKU1" (by rfl)
  exact ⟨h.1, h.2.1, h.2.2 1⟩

/-! ## C10: the in-memory cart across process_sale outcomes -/

/-- C10: process_sale returns the cart unchanged on every failure path —
empty cart, non-positive total for a non-credit payment, failed
re-validation, missing customer name on a credit sale, and the
storage/runtime-error branch — and returns the cleared cart exactly on
the success path, after the transactional writes. -/
theorem process_sale_clears_cart_only_on_success (db : DBState) (cart : Cart)
    (payment_type customer_name : String) (additional_charges discount_amount : ℚ)
    (notes : String) :
    (POSManager.process_sale db cart payment_type customer_name additional_charges
      discount_amount notes).2.2 =
      if (POSManager.process_sale db cart payment_type customer_name additional_charges
        discount_amount notes).1.isSuccess then [] else cart := by
  unfold POSManager.process_sale
  by_cases hc : cart.isEmpty = true
  · simp [hc, POSManager.SaleOutcome.isSuccess]
  · rw [if_neg hc]
    by_cases hg : (POSManager.calculate_cart_total cart additional_charges
        discount_amount).grand_total ≤ 0 ∧ payment_type ≠ "Credit"
    · rw [if_pos hg]
      simp [POSManager.SaleOutcome.isSuccess]
    · rw [if_neg hg]
      cases hb : POSManager.buildSaleItems db cart with
      | error e => simp [POSManager.SaleOutcome.isSuccess]
      | ok items =>
        dsimp only
        by_cases hpt : payment_type = "Credit"
        · rw [if_pos hpt]
          by_cases hcn : customer_name = ""
          · rw [if_pos hcn]
            simp [POSManager.SaleOutcome.isSuccess]
          · rw [if_neg hcn]
            simp [POSManager.SaleOutcome.isSuccess]
        · rw [if_neg hpt]
          simp [POSManager.SaleOutcome.isSuccess, POSManager.clear_cart]

/-! ## C3: committed sales never drive stock negative -/

/-- A key absent from the cart dictionary is not among its keys. -/
theorem not_mem_keys_of_lookup_none (cart : Cart) (i : String)
    (h : (cartLookup cart i).isSome = false) : i ∉ cart.map Prod.fst := by
  intro hmem
  obtain ⟨e, he, hei⟩ := List.mem_map.mp hmem
  unfold cartLookup at h
  cases hf : cart.find? (fun e => e.1 == i) with
  | some e₂ => rw [hf] at h; simp at h
  | none =>
    have hne := List.find?_eq_none.mp hf e he
    simp [hei] at hne

/-- Mapping a fst-preserving function over the cart keeps its key list.
-/
theorem cart_keys_map_of_fst_preserving (cart : Cart)
    (f : String × CartItem → String × CartItem) (hf : ∀ e, (f e).1 = e.1) :
    (cart.map f).map Prod.fst = cart.map Prod.fst := by
  rw [List.map_map]
  exact List.map_congr_left (fun e _ => hf e)

/-- add_item_to_cart keeps the cart keys duplicate-free. -/
theorem add_item_to_cart_keys_nodup (db : DBState) (cart : Cart) (i : String) (q : Int)
    (h : (cart.map Prod.fst).Nodup) :
    (((POSManager.add_item_to_cart db cart i q).2).map Prod.fst).Nodup := by
  unfold POSManager.add_item_to_cart
  cases hp : DatabaseManager.get_product_by_item_no db i with
  | none => exact h
  | some p =>
    dsimp only
    by_cases h1 : q ≤ 0
    · rw [if_pos h1]; exact h
    · rw [if_neg h1]
      by_cases h2 : p.current_stock <
          ((cartLookup cart i).map CartItem.quantity).getD 0 + q
      · rw [if_pos h2]; exact h
      · rw [if_neg h2]
        by_cases h3 : (cartLookup cart i).isSome = true
        · rw [if_pos h3]
          dsimp only
          rw [cart_keys_map_of_fst_preserving cart _ (fun e =>
            pair_update_preserves_fst i (fun e =>
              { e.2 with
                quantity := e.2.quantity + q
                subtotal := ((e.2.quantity + q : Int) : ℚ) * p.selling_price }) e)]
          exact h
        · rw [if_neg h3]
          dsimp only
          rw [List.map_append]
          have hmem : i ∉ cart.map Prod.fst :=
            not_mem_keys_of_lookup_none cart i (by simpa using h3)
          simp [List.nodup_append, h, hmem]

/-- remove_item_from_cart keeps the cart keys duplicate-free. -/
theorem remove_item_from_cart_keys_nodup (cart : Cart) (i : String)
    (h : (cart.map Prod.fst).Nodup) :
    (((POSManager.remove_item_from_cart cart i).2).map Prod.fst).Nodup := by
  unfold POSManager.remove_item_from_cart
  by_cases hs : (cartLookup cart i).isSome = true
  · rw [if_pos hs]
    dsimp only
    exact List.Nodup.sublist (List.Sublist.map Prod.fst (List.filter_sublist cart)) h
  · rw [if_neg hs]; exact h

/-- update_cart_item_quantity keeps the cart keys duplicate-free. -/
theorem update_cart_item_quantity_keys_nodup (db : DBState) (cart : Cart) (i : String)
    (q : Int) (h : (cart.map Prod.fst).Nodup) :
    (((POSManager.update_cart_item_quantity db cart i q).2).map Prod.fst).Nodup := by
  unfold POSManager.update_cart_item_quantity
  by_cases h0 : (cartLookup cart i).isNone = true
  · rw [if_pos h0]; exact h
  · rw [if_neg h0]
    cases hp : DatabaseManager.get_product_by_item_no db i with
    | none => exact h
    | some p =>
      dsimp only
      by_cases h1 : q < 0
      · rw [if_pos h1]; exact h
      · rw [if_neg h1]
        by_cases h2 : p.current_stock < q
        · rw [if_pos h2]; exact h
        · rw [if_neg h2]
          by_cases h3 : q = 0
          · rw [if_pos h3]
            exact remove_item_from_cart_keys_nodup cart i h
          · rw [if_neg h3]
            dsimp only
            rw [cart_keys_map_of_fst_preserving cart _ (fun e =>
              pair_update_preserves_fst i (fun e =>
                { e.2 with
                  quantity := q
                  subtotal := ((q : Int) : ℚ) * p.selling_price }) e)]
            exact h

/-- Mapping an item_no-preserving function over the product rows keeps
the key list. -/
theorem product_keys_map_of_preserving (l : List Product) (f : Product → Product)
    (hf : ∀ p, (f p).item_no = p.item_no) :
    (l.map f).map Product.item_no = l.map Product.item_no := by
  rw [List.map_map]
  exact List.map_congr_left (fun p _ => hf p)

/-- Adding a non-negative quantity to the matching rows keeps every
stock non-negative. -/
theorem stocksNonneg_map_add (l : List Product) (i : String) (q : Int) (hq : 0 ≤ q)
    (h : ∀ p ∈ l, 0 ≤ p.current_stock) :
    ∀ p ∈ l.map (fun p =>
      if p.item_no == i then { p with current_stock := p.current_stock + q } else p),
      0 ≤ p.current_stock := by
  intro p₂ hp₂
  obtain ⟨p, hp, rfl⟩ := List.mem_map.mp hp₂
  by_cases hb : (p.item_no == i) = true
  · simp only [hb, if_true]
    exact add_nonneg (h p hp) hq
  · simp only [hb, if_false]
    exact h p hp

/-- Rewriting the reorder flag leaves every stock as it was. -/
theorem stocksNonneg_map_alert (l : List Product) (i : String) (b : Bool)
    (h : ∀ p ∈ l, 0 ≤ p.current_stock) :
    ∀ p ∈ l.map (fun p =>
      if p.item_no == i then { p with reorder_alert := b } else p),
      0 ≤ p.current_stock := by
  intro p₂ hp₂
  obtain ⟨p, hp, rfl⟩ := List.mem_map.mp hp₂
  by_cases hb : (p.item_no == i) = true
  · simp only [hb, if_true]
    exact h p hp
  · simp only [hb, if_false]
    exact h p hp

/-- update_stock with a non-negative delta keeps stocks non-negative and
the product keys unchanged. -/
theorem update_stock_preserves (db : DBState) (i : String) (q : Int) (hq : 0 ≤ q)
    (hst : stocksNonneg db) :
    stocksNonneg (InventoryManager.update_stock db i q).2 ∧
    ((InventoryManager.update_stock db i q).2.products.map Product.item_no =
      db.products.map Product.item_no) := by
  have hst1 := stocksNonneg_map_add db.products i q hq hst
  have hkeys1 : (db.products.map (fun p =>
      if p.item_no == i then { p with current_stock := p.current_stock + q } else p)).map
        Product.item_no = db.products.map Product.item_no :=
    product_keys_map_of_preserving db.products _ (fun p => by
      by_cases hb : (p.item_no == i) = true <;> simp [hb])
  unfold InventoryManager.update_stock DatabaseManager.update_product_stock
  dsimp only
  simp only [eq_self_iff_true, if_true]
  cases hg : DatabaseManager.get_product_by_item_no
      { db with
        products := db.products.map (fun p =>
          if p.item_no == i then { p with current_stock := p.current_stock + q } else p) }
      i with
  | none => exact ⟨hst1, hkeys1⟩
  | some up =>
    dsimp only
    by_cases ha : (decide (up.current_stock < InventoryManager.reorder_default_level)
        ≠ up.reorder_alert)
    · rw [if_pos ha]
      refine ⟨?_, ?_⟩
      · exact stocksNonneg_map_alert _ i _ hst1
      · rw [product_keys_map_of_preserving
          (db.products.map (fun p =>
            if p.item_no == i then { p with current_stock := p.current_stock + q } else p))
          (fun p =>
            if p.item_no == i then
              { p with reorder_alert :=
                  decide (up.current_stock < InventoryManager.reorder_default_level) }
            else p)
          (fun p => by by_cases hb : (p.item_no == i) = true <;> simp [hb])]
        exact hkeys1
    · rw [if_neg ha]
      exact ⟨hst1, hkeys1⟩

/-- log_stock_in keeps stocks non-negative (its quantity guard admits
only positive additions) and the product keys unchanged. -/
theorem log_stock_in_preserves (db : DBState) (i : String) (q : Int) (sup n : String)
    (hst : stocksNonneg db) :
    stocksNonneg (StockLogManager.log_stock_in db i q sup n).2 ∧
    ((StockLogManager.log_stock_in db i q sup n).2.products.map Product.item_no =
      db.products.map Product.item_no) := by
  unfold StockLogManager.log_stock_in
  by_cases h0 : q ≤ 0
  · rw [if_pos h0]; exact ⟨hst, rfl⟩
  · rw [if_neg h0]
    cases hp : InventoryManager.get_product_by_item_no db i with
    | none => exact ⟨hst, rfl⟩
    | some p =>
      dsimp only [DatabaseManager.add_stock_in_log]
      have := update_stock_preserves
        { db with stock_in_log := db.stock_in_log ++
            [{ item_no := i, quantity_added := q, supplier_name := sup, notes := n }] }
        i q (le_of_lt (lt_of_not_le h0)) hst
      cases hb : (InventoryManager.update_stock
          { db with stock_in_log := db.stock_in_log ++
              [{ item_no := i, quantity_added := q, supplier_name := sup, notes := n }] }
          i q).1 with
      | true => simpa [hb] using this
      | false => simpa [hb] using this

/-- With a duplicate-free key column, the first row found under a key is
the member row carrying that key. -/
theorem find_product_eq_of_mem (l : List Product) :
    (l.map Product.item_no).Nodup →
    ∀ p : Product, p ∈ l → ∀ k : String, p.item_no = k →
    l.find? (fun q => q.item_no == k) = some p := by
  induction l with
  | nil => intro _ p hp; cases hp
  | cons x xs ih =>
    intro hnd p hp k hk
    rw [List.map_cons, List.nodup_cons] at hnd
    simp only [List.find?]
    cases hbc : (x.item_no == k) with
    | false =>
      rcases List.mem_cons.mp hp with rfl | hp₂
      · rw [beq_eq_false_iff_ne] at hbc
        exact absurd hk hbc
      · exact ih hnd.2 p hp₂ k hk
    | true =>
      have hxk : x.item_no = k := by simpa using hbc
      rcases List.mem_cons.mp hp with rfl | hp₂
      · rfl
      · exact absurd (by rw [hxk, ← hk]; exact List.mem_map_of_mem Product.item_no hp₂)
          hnd.1

/-- One deduction step of the transaction loop: every stock stays
non-negative provided the first row matching the item satisfied the
re-validated bound, and the key column is untouched. -/
theorem deduct_one_stocks (l : List Product) (i : String) (q : Int)
    (hnd : (l.map Product.item_no).Nodup)
    (hv : ∀ p, l.find? (fun r => r.item_no == i) = some p → q ≤ p.current_stock)
    (hst : ∀ p ∈ l, 0 ≤ p.current_stock) :
    ∀ p ∈ l.map (fun p =>
      if p.item_no == i then { p with current_stock := p.current_stock - q } else p),
      0 ≤ p.current_stock := by
  intro p₂ hp₂
  obtain ⟨p, hp, rfl⟩ := List.mem_map.mp hp₂
  by_cases hb : (p.item_no == i) = true
  · simp only [hb, if_true]
    have hkey : p.item_no = i := by simpa using hb
    have hfind := find_product_eq_of_mem l hnd p hp i hkey
    have hq := hv p hfind
    exact sub_nonneg.mpr hq
  · simp only [hb, if_false]
    exact hst p hp

/-- The transaction loop of a commit: when the product keys and item
keys are duplicate-free and every item is within the re-validated stock
of its product, all stocks stay non-negative and the key column is
unchanged. -/
theorem insertItemsAndDeduct_stocks (sale_id : Nat) :
    ∀ (items : List POSManager.SaleItemData) (db : DBState),
      (db.products.map Product.item_no).Nodup →
      (items.map POSManager.SaleItemData.item_no).Nodup →
      (∀ it ∈ items, ∀ p,
        DatabaseManager.get_product_by_item_no db it.item_no = some p →
        it.quantity_sold ≤ p.current_stock) →
      stocksNonneg db →
      stocksNonneg (POSManager.insertItemsAndDeduct sale_id db items) ∧
      (POSManager.insertItemsAndDeduct sale_id db items).products.map Product.item_no =
        db.products.map Product.item_no := by
  intro items
  induction items with
  | nil =>
    intro db hnd hknd hval hst
    exact ⟨hst, rfl⟩
  | cons it rest ih =>
    intro db hnd hknd hval hst
    rw [POSManager.insertItemsAndDeduct]
    rw [List.map_cons, List.nodup_cons] at hknd
    have hfpres : ∀ p : Product,
        ((fun p => if p.item_no == it.item_no then
            { p with current_stock := p.current_stock - it.quantity_sold } else p) p).item_no
          = p.item_no := by
      intro p
      by_cases hb : (p.item_no == it.item_no) = true <;> simp [hb]
    have hkeysA : (db.products.map (fun p =>
        if p.item_no == it.item_no then
          { p with current_stock := p.current_stock - it.quantity_sold } else p)).map
          Product.item_no = db.products.map Product.item_no :=
      product_keys_map_of_preserving db.products _ hfpres
    have hstA := deduct_one_stocks db.products it.item_no it.quantity_sold hnd
      (fun p hf => hval it (List.mem_cons_self it rest) p hf) hst
    have hndA : ((db.products.map (fun p =>
        if p.item_no == it.item_no then
          { p with current_stock := p.current_stock - it.quantity_sold } else p)).map
          Product.item_no).Nodup := by rw [hkeysA]; exact hnd
    have hvalA : ∀ it₂ ∈ rest, ∀ p,
        (db.products.map (fun p =>
          if p.item_no == it.item_no then
            { p with current_stock := p.current_stock - it.quantity_sold } else p)).find?
          (fun r => r.item_no == it₂.item_no) = some p →
        it₂.quantity_sold ≤ p.current_stock := by
      intro it₂ hit₂ p hfp
      rw [find_map_of_key_preserving (fun r : Product => r.item_no) _ hfpres] at hfp
      cases hf0 : db.products.find? (fun r => r.item_no == it₂.item_no) with
      | none => rw [hf0] at hfp; cases hfp
      | some p₀ =>
        rw [hf0, Option.map_some'] at hfp
        have hp0key : p₀.item_no = it₂.item_no := by
          have h := List.find?_some hf0
          simpa using h
        have hne : (p₀.item_no == it.item_no) = false := by
          rw [beq_eq_false_iff_ne, hp0key]
          intro hx
          exact hknd.1 (hx ▸ List.mem_map_of_mem POSManager.SaleItemData.item_no hit₂)
        cases hfp
        simp only [hne, Bool.false_eq_true, if_false]
        exact hval it₂ (List.mem_cons_of_mem it hit₂) p₀ hf0
    have hres := ih
      { db with
        sale_items := db.sale_items ++
          [{ sale_id := sale_id
             item_no := it.item_no
             quantity_sold := it.quantity_sold
             selling_price_at_sale := it.selling_price_at_sale
             supplier_price_at_sale := it.supplier_price_at_sale }]
        products := db.products.map (fun p =>
          if p.item_no == it.item_no then
            { p with current_stock := p.current_stock - it.quantity_sold }
          else p) }
      hndA hknd.2 hvalA hstA
    exact ⟨hres.1, hres.2.trans hkeysA⟩

/-- The re-validation facts carried over to any store with the same
product rows, in the form the deduction lemma consumes. -/
theorem buildSaleItems_validation (db db₁ : DBState) (cart : Cart)
    (items : List POSManager.SaleItemData)
    (hprod : db₁.products = db.products)
    (hb : POSManager.buildSaleItems db cart = Except.ok items) :
    ∀ it ∈ items, ∀ p,
      DatabaseManager.get_product_by_item_no db₁ it.item_no = some p →
      it.quantity_sold ≤ p.current_stock := by
  obtain ⟨hitems, hval⟩ := buildSaleItems_ok db cart items hb
  subst hitems
  intro it hit p hp
  obtain ⟨e, he, rfl⟩ := List.mem_map.mp hit
  dsimp only at hp ⊢
  obtain ⟨p₀, hp₀, hq⟩ := hval e he
  have heq : DatabaseManager.get_product_by_item_no db₁ e.1 =
      DatabaseManager.get_product_by_item_no db e.1 := by
    unfold DatabaseManager.get_product_by_item_no
    rw [hprod]
  rw [heq, hp₀] at hp
  cases hp
  exact hq

/-- The collected items carry exactly the cart keys. -/
theorem buildSaleItems_keys (db : DBState) (cart : Cart)
    (items : List POSManager.SaleItemData)
    (hb : POSManager.buildSaleItems db cart = Except.ok items) :
    items.map POSManager.SaleItemData.item_no = cart.map Prod.fst := by
  obtain ⟨hitems, -⟩ := buildSaleItems_ok db cart items hb
  subst hitems
  rw [List.map_map]
  exact List.map_congr_left (fun e _ => rfl)

/-- Every process_sale run either leaves the store and the cart exactly
as they were, or commits: the collection loop succeeded and the
resulting store is the transaction loop run on a store with the same
product rows, with the cart cleared. -/
theorem process_sale_shape (db : DBState) (cart : Cart) (payment_type customer_name : String)
    (additional_charges discount_amount : ℚ) (notes : String) :
    ((POSManager.process_sale db cart payment_type customer_name additional_charges
        discount_amount notes).2.1 = db ∧
     (POSManager.process_sale db cart payment_type customer_name additional_charges
        discount_amount notes).2.2 = cart) ∨
    (∃ items db₁,
      POSManager.buildSaleItems db cart = Except.ok items ∧
      db₁.products = db.products ∧
      (POSManager.process_sale db cart payment_type customer_name additional_charges
        discount_amount notes).2.1 =
        POSManager.insertItemsAndDeduct db.next_sale_id db₁ items ∧
      (POSManager.process_sale db cart payment_type customer_name additional_charges
        discount_amount notes).2.2 = []) := by
  unfold POSManager.process_sale
  by_cases hc : cart.isEmpty = true
  · rw [if_pos hc]; left; exact ⟨rfl, rfl⟩
  · rw [if_neg hc]
    by_cases hg : (POSManager.calculate_cart_total cart additional_charges
        discount_amount).grand_total ≤ 0 ∧ payment_type ≠ "Credit"
    · rw [if_pos hg]; left; exact ⟨rfl, rfl⟩
    · rw [if_neg hg]
      cases hb : POSManager.buildSaleItems db cart with
      | error e => left; exact ⟨rfl, rfl⟩
      | ok items =>
        dsimp only
        by_cases hpt : payment_type = "Credit"
        · rw [if_pos hpt]
          by_cases hcn : customer_name = ""
          · rw [if_pos hcn]; left; exact ⟨rfl, rfl⟩
          · rw [if_neg hcn]; left; exact ⟨rfl, rfl⟩
        · rw [if_neg hpt]
          right
          refine ⟨items,
            { db with
              sales := db.sales ++
                [{ sale_id := db.next_sale_id
                   total_amount := (POSManager.calculate_cart_total cart additional_charges
                     discount_amount).grand_total
                   payment_type := payment_type
                   customer_name := if customer_name = "" then none else some customer_name
                   notes := if notes = "" then none else some notes }]
              next_sale_id := db.next_sale_id + 1 }, rfl, rfl, rfl, rfl⟩

/-- Each operation preserves well-formedness: non-negative stocks,
duplicate-free product keys and duplicate-free cart keys. -/
theorem stepOp_preserves_WF (s : DBState × Cart) (op : Op) (h : WFState s) :
    WFState (stepOp s op) := by
  obtain ⟨hst, hpnd, hcnd⟩ := h
  cases op with
  | addItem i q =>
    exact ⟨hst, hpnd, add_item_to_cart_keys_nodup s.1 s.2 i q hcnd⟩
  | setQuantity i q =>
    exact ⟨hst, hpnd, update_cart_item_quantity_keys_nodup s.1 s.2 i q hcnd⟩
  | removeItem i =>
    exact ⟨hst, hpnd, remove_item_from_cart_keys_nodup s.2 i hcnd⟩
  | clearCart =>
    exact ⟨hst, hpnd, List.nodup_nil⟩
  | stockIn i q sup n =>
    obtain ⟨h1, h2⟩ := log_stock_in_preserves s.1 i q sup n hst
    have h3 : (((StockLogManager.log_stock_in s.1 i q sup n).2).products.map
        Product.item_no).Nodup := by rw [h2]; exact hpnd
    exact ⟨h1, h3, hcnd⟩
  | commit pt cn ac da n =>
    rcases process_sale_shape s.1 s.2 pt cn ac da n with ⟨hdb, hcart⟩ |
      ⟨items, db₁, hb, hprod, hdb, hcart⟩
    · have c1 : stocksNonneg (POSManager.process_sale s.1 s.2 pt cn ac da n).2.1 := by
        rw [hdb]; exact hst
      have c2 : (((POSManager.process_sale s.1 s.2 pt cn ac da n).2.1).products.map
          Product.item_no).Nodup := by rw [hdb]; exact hpnd
      have c3 : (((POSManager.process_sale s.1 s.2 pt cn ac da n).2.2).map
          Prod.fst).Nodup := by rw [hcart]; exact hcnd
      exact ⟨c1, c2, c3⟩
    · have hpnd₁ : (db₁.products.map Product.item_no).Nodup := by
        rw [hprod]; exact hpnd
      have hknd : (items.map POSManager.SaleItemData.item_no).Nodup := by
        rw [buildSaleItems_keys s.1 s.2 items hb]; exact hcnd
      have hst₁ : stocksNonneg db₁ := by
        unfold stocksNonneg
        rw [hprod]
        exact hst
      obtain ⟨hres1, hres2⟩ := insertItemsAndDeduct_stocks s.1.next_sale_id items db₁
        hpnd₁ hknd (buildSaleItems_validation s.1 db₁ s.2 items hprod hb) hst₁
      have c1 : stocksNonneg (POSManager.process_sale s.1 s.2 pt cn ac da n).2.1 := by
        rw [hdb]; exact hres1
      have c2 : (((POSManager.process_sale s.1 s.2 pt cn ac da n).2.1).products.map
          Product.item_no).Nodup := by rw [hdb, hres2, hprod]; exact hpnd
      have c3 : (((POSManager.process_sale s.1 s.2 pt cn ac da n).2.2).map
          Prod.fst).Nodup := by rw [hcart]; exact List.nodup_nil
      exact ⟨c1, c2, c3⟩

/-- C3: for every sequence of cart add/update-quantity/remove/clear
operations, stock-in events and commits, starting from a well-formed
state, no committed sale ever drives any product's current_stock below
zero — every reachable store keeps all stocks non-negative, because cart
additions are checked against stock minus what the cart holds and every
successful commit deducts only quantities re-validated against the
current persisted stock just before the write. -/
theorem stock_never_negative (init : DBState × Cart) (ops : List Op)
    (hwf : WFState init) : stocksNonneg (runOps init ops).1 := by
  have main : ∀ (l : List Op) (s : DBState × Cart), WFState s → WFState (runOps s l) := by
    intro l
    induction l with
    | nil => intro s hs; exact hs
    | cons op rest ih =>
      intro s hs
      exact ih (stepOp s op) (stepOp_preserves_WF s op hs)
  exact (main ops init hwf).1

/-- Witness for C3 at a concrete input: one add of 3 units, a cash
commit and a stock-in of 4, run from the well-formed single-product
store. -/
theorem stock_never_negative_witness :
    WFState (priceDBold, ([] : Cart)) ∧
    stocksNonneg (runOps (priceDBold, ([] : Cart))
      [Op.addItem "SKU1" 3, Op.commit "Cash" "" 0 0 "",
       Op.stockIn "SKU1" 4 "Supplier" ""]).1 :=
  ⟨by unfold WFState stocksNonneg; decide,
   stock_never_negative (priceDBold, ([] : Cart))
    [Op.addItem "SKU1" 3, Op.commit "Cash" "" 0 0 "",
     Op.stockIn "SKU1" 4 "Supplier" ""]
    (by unfold WFState stocksNonneg; decide)⟩

end Retail
